import Mathlib

/-!
Shallow embedding of the dairy-shop risk classifier.

The repository has two script variants:
  * `src/src/main.py` — the streamlit app: `normalize_df_columns`,
    the `days_left` rename, `find_risky_rows`, the risk-score computation in
    the upload handler, and `build_alert_payload`.
  * `src/main.py` — a minimal variant deriving `expiry_days` from an
    `expiry_date` column with `pd.to_datetime`.

Dataframes are modelled positionally: a list of column names and rows that
are lists of cells aligned with the columns.  A cell is an integer, a raw
string, or NA (pandas NaN / missing).  Numeric cells are integers: the
uploaded CSVs carry integer day counts, and `astype(int)` lands every
surviving value in the integers; rational/float cell contents play no role in
any claim.  Python float arithmetic in the score formula is modelled by exact
rational arithmetic (`ℚ`) with `Int.toNat ∘ Int.floor` for Python's `int()`
truncation of a non-negative value.
-/

/-- One dataframe cell: an integer value, an uninterpreted string, or NA. -/
inductive Cell where
  | num (n : Int)
  | str (s : String)
  | na
deriving DecidableEq

/-- Whether a cell already holds a numeric value. -/
def Cell.isNum : Cell → Bool
  | .num _ => true
  | _ => false

/-- A dataframe: column labels plus rows of cells aligned positionally. -/
structure DataFrame where
  cols : List String
  rows : List (List Cell)
deriving DecidableEq

/-- Well-formedness: every row has exactly one cell per column. -/
def DataFrame.Wf (df : DataFrame) : Prop :=
  ∀ r ∈ df.rows, r.length = df.cols.length

/-- ASCII whitespace, as `str.strip` removes from column labels. -/
def isSpaceChar (c : Char) : Bool :=
  c.toNat = 32 || c.toNat = 9 || c.toNat = 10 || c.toNat = 13

/-- ASCII lowercasing of one character, as `str.lower` acts on the
column labels in play. -/
def lowerChar (c : Char) : Char :=
  if 65 ≤ c.toNat ∧ c.toNat ≤ 90 then Char.ofNat (c.toNat + 32) else c

/-- `c.strip().lower()` on a column label (src/src/main.py:64). -/
def normColName (s : String) : String :=
  ⟨(((s.data.dropWhile isSpaceChar).reverse.dropWhile isSpaceChar).reverse).map
      lowerChar⟩

/-- From `normalize_df_columns` (src/src/main.py:61-65): strip and lowercase
every column label; the data is untouched. -/
def normalizeDfColumns (df : DataFrame) : DataFrame :=
  { df with cols := df.cols.map normColName }

/-- The column-label substitution of
`df.rename(columns=...)` for the days_left synonym (src/src/main.py:136). -/
def renameLabel (c : String) : String :=
  if c = "days_left" then "days_remaining" else c

/-- From the upload handler (src/src/main.py:135-136): rename `days_left` to
`days_remaining` only when the canonical label is absent. -/
def applyDaysLeftRename (df : DataFrame) : DataFrame :=
  if "days_left" ∈ df.cols ∧ "days_remaining" ∉ df.cols then
    { df with cols := df.cols.map renameLabel }
  else df

/-- Value of a list of decimal digit characters, `none` if empty or any
character is not a digit. -/
def charsToNat? (l : List Char) : Option Nat :=
  match l with
  | [] => none
  | _ =>
    l.foldl (fun acc c =>
      acc.bind (fun a => if c.isDigit then some (a * 10 + (c.toNat - 48)) else none))
      (some 0)

/-- Integer parsing of a character sequence: an optional leading minus sign
followed by decimal digits. -/
def charsToInt? (l : List Char) : Option Int :=
  match l with
  | c :: rest =>
    if c.toNat = 45 then (charsToNat? rest).map (fun n => -(n : Int))
    else (charsToNat? l).map (fun n => (n : Int))
  | [] => none

/-- `pd.to_numeric(·, errors="coerce")` on one cell: integers pass through,
strings parse as integers, anything unparseable or NA becomes NaN (`none`).
(Numeric cell contents are integers throughout this model, as in the CSVs the
scripts expect; fractional values play no role in any claim.) -/
def cellToNum : Cell → Option Int
  | .num n => some n
  | .str s => charsToInt? s.data
  | .na => none

/-- `pd.to_numeric(·, errors="coerce").fillna(9999).astype(int)` on one cell. -/
def coerceCell (c : Cell) : Cell :=
  .num ((cellToNum c).getD 9999)

/-- The integer a (coerced) days_remaining cell contributes to the `<= 3`
comparison: the stored number, with the 9999 sentinel for anything else. -/
def cellVal (c : Cell) : Int :=
  (cellToNum c).getD 9999

/-- In-place coercion of the days_remaining column of one row
(src/src/main.py:72): the cell at index `i` is overwritten by its coerced
value. -/
def coerceRow (i : Nat) (r : List Cell) : List Cell :=
  r.set i (coerceCell (r.getD i .na))

/-- Position of the days_remaining column in a dataframe's labels. -/
def daysIdx (df : DataFrame) : Nat :=
  df.cols.indexOf "days_remaining"

/-- The row predicate of `df[df["days_remaining"] <= 3]`
(src/src/main.py:73), read off the (coerced) cell at column position `i`. -/
def isRisky (i : Nat) (r : List Cell) : Bool :=
  cellVal (r.getD i .na) ≤ 3

/-- From `find_risky_rows` (src/src/main.py:67-74).  Returns the risky
dataframe together with the dataframe the caller is left holding: the column
assignment `df["days_remaining"] = ...` mutates the argument, so the second
component is the caller's dataframe after the call. -/
def findRiskyRows (df : DataFrame) : DataFrame × DataFrame :=
  if "days_remaining" ∈ df.cols then
    let coerced : DataFrame :=
      { df with rows := df.rows.map (coerceRow (daysIdx df)) }
    ({ cols := coerced.cols,
       rows := coerced.rows.filter (isRisky (daysIdx df)) },
     coerced)
  else
    (⟨[], []⟩, df)

/-- The risk-score arithmetic of the upload handler (src/src/main.py:142-148):
`risk_ratio = risky_items / total_items` and
`risk_score = int(max(0, 100 - risk_ratio * 100))` when `total_items > 0`,
else `100`.  Python evaluates this in IEEE-754 double arithmetic; it is
idealized here as exact arithmetic over `ℚ`, with `int()` of the
non-negative result as floor.  Double rounding can land `risk_ratio * 100`
a hair off the exact product (`0.55 * 100 > 55` in doubles), which can shift
`int()` by one exactly at integer boundaries, so this idealization pins down
only the boundary-robust consequences of the formula: the `[0, 100]` bounds
(`max` with 0, and 100 minus a non-negative never exceeds 100, in doubles as
in `ℚ`) and the exact `risky = 0` case (`0.0 * 100`, `100 - 0.0` and
`int(100.0)` are all exact in doubles). -/
def riskScoreOf (risky total : Nat) : Nat :=
  if 0 < total then
    (Int.floor (max 0 ((100 : ℚ) - (risky : ℚ) / (total : ℚ) * 100))).toNat
  else 100

/-- The derived assessment of one uploaded batch. -/
structure RiskAssessment where
  risky_rows : DataFrame
  risk_score : Nat
deriving DecidableEq

/-- The classification pass of the upload handler (src/src/main.py:141-148):
find the risky rows, then score the batch by `len(risky_df) / len(df)` with
the raw batch length as denominator.  The second component is the caller's
dataframe after the pass (mutated by `find_risky_rows`). -/
def assess (df : DataFrame) : RiskAssessment × DataFrame :=
  (⟨(findRiskyRows df).1,
     riskScoreOf (findRiskyRows df).1.rows.length
       (findRiskyRows df).2.rows.length⟩,
   (findRiskyRows df).2)

/-- The normalization applied to an upload before classification
(src/src/main.py:133-136): lowercase/trim the labels, then the days_left
synonym rename. -/
def normalizeUpload (df : DataFrame) : DataFrame :=
  applyDaysLeftRename (normalizeDfColumns df)

/-- A UTC wall-clock instant as `datetime.utcnow()` yields it. -/
structure Timestamp where
  year : Nat
  month : Nat
  day : Nat
  hour : Nat
  minute : Nat
  second : Nat
  micro : Nat
deriving DecidableEq

/-- Two-digit zero-padded decimal rendering, as `datetime.isoformat` emits
for month, day, hour, minute and second. -/
def pad2 (n : Nat) : List Char :=
  [Nat.digitChar (n / 10 % 10), Nat.digitChar (n % 10)]

/-- Four-digit zero-padded decimal rendering for the year. -/
def pad4 (n : Nat) : List Char :=
  [Nat.digitChar (n / 1000 % 10), Nat.digitChar (n / 100 % 10),
   Nat.digitChar (n / 10 % 10), Nat.digitChar (n % 10)]

/-- Six-digit zero-padded decimal rendering for the microseconds. -/
def pad6 (n : Nat) : List Char :=
  [Nat.digitChar (n / 100000 % 10), Nat.digitChar (n / 10000 % 10),
   Nat.digitChar (n / 1000 % 10), Nat.digitChar (n / 100 % 10),
   Nat.digitChar (n / 10 % 10), Nat.digitChar (n % 10)]

/-- `datetime.utcnow().isoformat() + "Z"` (src/src/main.py:114) as a character
sequence: `YYYY-MM-DDTHH:MM:SS`, a `.ffffff` fraction exactly when the
microsecond field is non-zero, then the appended `Z`. -/
def isoUtcZ (t : Timestamp) : List Char :=
  pad4 t.year ++ [Char.ofNat 45] ++ pad2 t.month ++ [Char.ofNat 45] ++
  pad2 t.day ++ [Char.ofNat 84] ++ pad2 t.hour ++ [Char.ofNat 58] ++
  pad2 t.minute ++ [Char.ofNat 58] ++ pad2 t.second ++
  (if t.micro = 0 then [] else Char.ofNat 46 :: pad6 t.micro) ++ [Char.ofNat 90]

/-- Checker for the spec's words: an ISO-8601 UTC timestamp of the shape
`YYYY-MM-DDTHH:MM:SS[.ffffff]Z`. -/
def isIso8601UtcZ : List Char → Bool
  | y1 :: y2 :: y3 :: y4 :: sep1 :: m1 :: m2 :: sep2 :: d1 :: d2 :: sepT ::
      h1 :: h2 :: sep3 :: n1 :: n2 :: sep4 :: s1 :: s2 :: rest =>
    ([y1, y2, y3, y4, m1, m2, d1, d2, h1, h2, n1, n2, s1, s2].all Char.isDigit
      && (sep1 == Char.ofNat 45) && (sep2 == Char.ofNat 45)
      && (sepT == Char.ofNat 84) && (sep3 == Char.ofNat 58)
      && (sep4 == Char.ofNat 58))
    && (match rest with
        | [z] => z == Char.ofNat 90
        | dot :: f1 :: f2 :: f3 :: f4 :: f5 :: f6 :: [z] =>
          (dot == Char.ofNat 46) && (z == Char.ofNat 90)
            && [f1, f2, f3, f4, f5, f6].all Char.isDigit
        | _ => false)
  | _ => false

/-- The record view `risky_df.to_dict(orient="records")`: each row as a list
of column-name/value pairs. -/
def toRecords (df : DataFrame) : List (List (String × Cell)) :=
  df.rows.map (fun r => df.cols.zip r)

/-- The outbound webhook payload.  `build_alert_payload`
(src/src/main.py:111-117) constructs a dict with exactly these three keys. -/
structure AlertPayload where
  alert_time : List Char
  risk_score : Int
  risky_items : List (List (String × Cell))
deriving DecidableEq

/-- From `build_alert_payload` (src/src/main.py:111-117): `alert_time` is
`utcnow().isoformat() + "Z"`, `risk_score` is `int(risk_score)`, and
`risky_items` is `risky_df.to_dict(orient="records")`. -/
def buildAlertPayload (now : Timestamp) (score : Nat) (risky : DataFrame) :
    AlertPayload :=
  { alert_time := isoUtcZ now
    risk_score := (score : Int)
    risky_items := toRecords risky }

/-- Gregorian leap-year test, for calendar-date validity. -/
def isLeapYear (y : Nat) : Bool :=
  (y % 4 == 0 && y % 100 != 0) || y % 400 == 0

/-- Number of days in a month of a given year. -/
def daysInMonth (y m : Nat) : Nat :=
  if m = 2 then (if isLeapYear y then 29 else 28)
  else if m = 4 ∨ m = 6 ∨ m = 9 ∨ m = 11 then 30
  else 31

/-- Days from the civil epoch 1970-01-01 to year/month/day (the standard
days-from-civil computation underlying timestamp libraries). -/
def daysFromCivil (y m d : Nat) : Int :=
  let yy : Int := if m ≤ 2 then (y : Int) - 1 else (y : Int)
  let era : Int := Int.fdiv yy 400
  let yoe : Int := yy - era * 400
  let mp : Int := if 2 < m then (m : Int) - 3 else (m : Int) + 9
  let doy : Int := Int.fdiv (153 * mp + 2) 5 + (d : Int) - 1
  let doe : Int := yoe * 365 + Int.fdiv yoe 4 - Int.fdiv yoe 100 + doy
  era * 146097 + doe - 719468

/-- Splitting a character sequence at hyphens (character 45), the separator of
an ISO `YYYY-MM-DD` date. -/
def splitDash : List Char → List Char → List (List Char)
  | [], acc => [acc.reverse]
  | c :: cs, acc =>
    if c.toNat = 45 then acc.reverse :: splitDash cs []
    else splitDash cs (c :: acc)

/-- Calendar-date parsing as `pd.to_datetime` accepts for ISO `YYYY-MM-DD`
strings: four-digit year, in-range month and day.  Anything else is
unparseable and yields `none` (to_datetime raises on it). -/
def parseDate (s : String) : Option Int :=
  match splitDash s.data [] with
  | [ys, ms, ds] =>
    match charsToNat? ys, charsToNat? ms, charsToNat? ds with
    | some y, some m, some d =>
      if ys.length = 4 ∧ 1 ≤ m ∧ m ≤ 12 ∧ 1 ≤ d ∧ d ≤ daysInMonth y m then
        some (daysFromCivil y m d)
      else none
    | _, _, _ => none
  | _ => none

/-- `pd.to_datetime` on one cell, as epoch nanoseconds: NaN becomes NaT
(`none`), an integer is taken as epoch nanoseconds, a string must parse as a
calendar date or the call raises (`Except.error`). -/
def toDatetimeNs (c : Cell) : Except String (Option Int) :=
  match c with
  | .na => .ok none
  | .num n => .ok (some n)
  | .str s =>
    match parseDate s with
    | some d => .ok (some (d * 86400000000000))
    | none => .error s

/-- The derived day-count cell: `(timestamp - now).dt.days` is the floor of
the nanosecond difference in whole days; a NaT timestamp gives NaN. -/
def expiryCell (nowNs : Int) (o : Option Int) : Cell :=
  match o with
  | some t => .num (Int.fdiv (t - nowNs) 86400000000000)
  | none => .na

/-- Row-wise derivation of the expiry-day cells; the first cell on which
`pd.to_datetime` raises aborts the whole column computation. -/
def deriveRows (nowNs : Int) (i : Nat) :
    List (List Cell) → Except String (List (List Cell))
  | [] => .ok []
  | r :: rs =>
    match toDatetimeNs (r.getD i .na) with
    | .error e => .error e
    | .ok o =>
      match deriveRows nowNs i rs with
      | .error e => .error e
      | .ok rest => .ok ((r ++ [expiryCell nowNs o]) :: rest)

/-- The `expiry_days` cell a row receives when its date cell does not make
`pd.to_datetime` raise. -/
def expiryCellOf (nowNs : Int) (c : Cell) : Cell :=
  match toDatetimeNs c with
  | .ok o => expiryCell nowNs o
  | .error _ => .na

/-- From src/main.py:15: append the derived column
`expiry_days = (pd.to_datetime(df[expiry_date]) - datetime.now()).dt.days`.
A missing `expiry_date` column raises a KeyError; an unparseable date cell
makes `pd.to_datetime` raise; a NaT difference gives a NaN day count. -/
def deriveExpiryDays (nowNs : Int) (df : DataFrame) :
    Except String DataFrame :=
  if "expiry_date" ∈ df.cols then
    (deriveRows nowNs (df.cols.indexOf "expiry_date") df.rows).map
      (fun rs => ⟨df.cols ++ ["expiry_days"], rs⟩)
  else .error "KeyError: expiry_date"

/-! ### Concrete batches used as witnesses and counterexamples -/

/-- A batch whose days_remaining cell is a non-numeric string. -/
def dfMut : DataFrame :=
  ⟨["days_remaining"], [[.str "soon"]]⟩

/-- A small normalized batch with integer day counts 2 and 5. -/
def dfSmall : DataFrame :=
  ⟨["days_remaining"], [[.num 2], [.num 5]]⟩

/-- A batch using the `days_left` synonym only. -/
def dfLeft : DataFrame :=
  ⟨["days_left"], [[.num 2]]⟩

/-- A batch carrying both `days_left` and the canonical column. -/
def dfBoth : DataFrame :=
  ⟨["days_left", "days_remaining"], [[.num 1, .num 7]]⟩

/-- A batch with a row whose days_remaining cell is missing. -/
def dfMissing : DataFrame :=
  ⟨["product", "days_remaining"], [[.str "milk", .na], [.str "curd", .num 1]]⟩

/-- A raw upload with no day column at all (mixed-case product label). -/
def dfNoDays : DataFrame :=
  ⟨["Product"], [[.str "milk"], [.str "ghee"]]⟩

/-- A batch whose expiry_date cell is not a parseable calendar date. -/
def dfBadDate : DataFrame :=
  ⟨["expiry_date"], [[.str "not-a-date"]]⟩

/-- A batch of parseable expiry dates. -/
def dfGoodDate : DataFrame :=
  ⟨["expiry_date"], [[.str "1970-01-02"], [.na]]⟩

/-! ### Helper lemmas -/

lemma map_eq_self_of {α : Type} (f : α → α) (l : List α)
    (h : ∀ x ∈ l, f x = x) : l.map f = l := by
  induction l with
  | nil => rfl
  | cons a t ih =>
    simp [h a (List.mem_cons_self a t),
      ih (fun x hx => h x (List.mem_cons_of_mem a hx))]

lemma set_getD_self {α : Type} (l : List α) (i : Nat) (d : α) :
    l.set i (l.getD i d) = l := by
  induction l generalizing i with
  | nil => simp
  | cons a t ih =>
    cases i with
    | zero => rfl
    | succ j =>
      show a :: t.set j (t.getD j d) = a :: t
      rw [ih]

lemma riskScoreOf_eq_div (r t : Nat) (h : r ≤ t) :
    riskScoreOf r t = if t = 0 then 100 else 100 * (t - r) / t := by
  unfold riskScoreOf
  rcases Nat.eq_zero_or_pos t with ht | ht
  · subst ht; simp
  · rw [if_pos ht, if_neg (Nat.pos_iff_ne_zero.mp ht)]
    have htq : (t : ℚ) ≠ 0 := Nat.cast_ne_zero.mpr (Nat.pos_iff_ne_zero.mp ht)
    have hq : (100 : ℚ) - (r : ℚ) / (t : ℚ) * 100 =
        ((100 * (t - r) : ℕ) : ℚ) / ((t : ℕ) : ℚ) := by
      push_cast [Nat.cast_sub h]
      field_simp
      ring
    rw [hq, max_eq_right (by positivity), Rat.floor_natCast_div_natCast]
    norm_cast

lemma riskScoreOf_le_100 (r t : Nat) : riskScoreOf r t ≤ 100 := by
  unfold riskScoreOf
  split
  · apply Int.toNat_le.mpr
    have hx : max 0 ((100 : ℚ) - (r : ℚ) / (t : ℚ) * 100) ≤ 100 := by
      apply max_le (by norm_num)
      have h0 : (0 : ℚ) ≤ (r : ℚ) / (t : ℚ) * 100 := by positivity
      linarith
    calc ⌊max 0 ((100 : ℚ) - (r : ℚ) / (t : ℚ) * 100)⌋
        ≤ ⌊(100 : ℚ)⌋ := Int.floor_le_floor hx
      _ = 100 := by norm_num
  · norm_num

lemma findRiskyRows_of_mem (df : DataFrame)
    (hcol : "days_remaining" ∈ df.cols) :
    findRiskyRows df =
      ({ cols := df.cols,
         rows := (df.rows.map (coerceRow (daysIdx df))).filter
           (isRisky (daysIdx df)) },
       { df with rows := df.rows.map (coerceRow (daysIdx df)) }) := by
  unfold findRiskyRows
  rw [if_pos hcol]

lemma findRiskyRows_of_not_mem (df : DataFrame)
    (hcol : "days_remaining" ∉ df.cols) :
    findRiskyRows df = (⟨[], []⟩, df) := by
  unfold findRiskyRows
  rw [if_neg hcol]

lemma findRiskyRows_snd_length (df : DataFrame) :
    (findRiskyRows df).2.rows.length = df.rows.length := by
  unfold findRiskyRows
  split <;> simp

lemma findRiskyRows_fst_le (df : DataFrame) :
    (findRiskyRows df).1.rows.length ≤ df.rows.length := by
  unfold findRiskyRows
  split
  · calc ((df.rows.map (coerceRow (daysIdx df))).filter
        (isRisky (daysIdx df))).length
        ≤ (df.rows.map (coerceRow (daysIdx df))).length :=
          List.length_filter_le _ _
      _ = df.rows.length := List.length_map _ _
  · simp

lemma assess_risk_score (df : DataFrame) :
    (assess df).1.risk_score =
      riskScoreOf (findRiskyRows df).1.rows.length
        (findRiskyRows df).2.rows.length := rfl

lemma coerceCell_coerceCell (c : Cell) : coerceCell (coerceCell c) = coerceCell c := by
  simp [coerceCell, cellToNum]

lemma cellVal_coerceCell (c : Cell) : cellVal (coerceCell c) = cellVal c := by
  simp [cellVal, coerceCell, cellToNum]

lemma isNum_coerceCell (c : Cell) : Cell.isNum (coerceCell c) = true := by
  simp [coerceCell, Cell.isNum]

lemma coerceRow_of_isNum (i : Nat) (r : List Cell)
    (h : Cell.isNum (r.getD i .na) = true) : coerceRow i r = r := by
  unfold coerceRow
  cases hc : r.getD i .na with
  | num n =>
    have hcc : coerceCell (Cell.num n) = Cell.num n := by
      simp [coerceCell, cellToNum]
    rw [hcc, ← hc]
    exact set_getD_self r i Cell.na
  | str s => rw [hc] at h; simp [Cell.isNum] at h
  | na => rw [hc] at h; simp [Cell.isNum] at h

lemma getD_coerceRow (i : Nat) (r : List Cell) (h : i < r.length) :
    (coerceRow i r).getD i .na = coerceCell (r.getD i .na) := by
  unfold coerceRow
  rw [List.getD_eq_getElem?_getD, List.getElem?_set_self h, Option.getD_some,
    List.getD_eq_getElem?_getD]

lemma cellVal_getD_coerceRow (i : Nat) (r : List Cell) :
    cellVal ((coerceRow i r).getD i .na) = cellVal (r.getD i .na) := by
  rcases Nat.lt_or_ge i r.length with h | h
  · unfold coerceRow
    rw [List.getD_eq_getElem?_getD, List.getElem?_set_self h, Option.getD_some,
      cellVal_coerceCell]
  · unfold coerceRow
    rw [List.set_eq_of_length_le h]

lemma isRisky_coerceRow (i : Nat) (r : List Cell) :
    isRisky i (coerceRow i r) = isRisky i r := by
  unfold isRisky
  rw [cellVal_getD_coerceRow]

lemma coerceRow_coerceRow (i : Nat) (r : List Cell) :
    coerceRow i (coerceRow i r) = coerceRow i r := by
  rcases Nat.lt_or_ge i r.length with h | h
  · show (coerceRow i r).set i (coerceCell ((coerceRow i r).getD i .na)) =
      coerceRow i r
    rw [getD_coerceRow i r h, coerceCell_coerceCell]
    show (r.set i (coerceCell (r.getD i .na))).set i
      (coerceCell (r.getD i .na)) = coerceRow i r
    rw [List.set_set]
    rfl
  · have hr : coerceRow i r = r := by
      unfold coerceRow
      exact List.set_eq_of_length_le h
    rw [hr, hr]

lemma map_coerceRow_idem (i : Nat) (rs : List (List Cell)) :
    (rs.map (coerceRow i)).map (coerceRow i) = rs.map (coerceRow i) := by
  induction rs with
  | nil => rfl
  | cons r t ih =>
    simp only [List.map_cons, coerceRow_coerceRow]
    rw [ih]

lemma findRiskyRows_snd_stable (df : DataFrame) :
    findRiskyRows (findRiskyRows df).2 = findRiskyRows df := by
  by_cases hcol : "days_remaining" ∈ df.cols
  · rw [findRiskyRows_of_mem df hcol]
    have hcol2 : "days_remaining" ∈
        (DataFrame.mk df.cols (df.rows.map (coerceRow (daysIdx df)))).cols := hcol
    rw [findRiskyRows_of_mem _ hcol2]
    have hidx : daysIdx (DataFrame.mk df.cols
        (df.rows.map (coerceRow (daysIdx df)))) = daysIdx df := rfl
    simp only [hidx]
    rw [map_coerceRow_idem]
  · rw [findRiskyRows_of_not_mem df hcol, findRiskyRows_of_not_mem df hcol]

lemma isNum_of_coerceRow_eq (i : Nat) (r : List Cell) (hlt : i < r.length)
    (h : coerceRow i r = r) : Cell.isNum (r.getD i .na) = true := by
  have h1 : (coerceRow i r).getD i .na = r.getD i .na := by rw [h]
  unfold coerceRow at h1
  rw [List.getD_eq_getElem?_getD, List.getElem?_set_self hlt,
    Option.getD_some, List.getD_eq_getElem?_getD] at h1
  rw [List.getD_eq_getElem?_getD, ← h1]
  exact isNum_coerceCell _

lemma indexOf_map_renameLabel (l : List String) (h : "days_remaining" ∉ l) :
    (l.map renameLabel).indexOf "days_remaining" = l.indexOf "days_left" := by
  induction l with
  | nil => simp
  | cons a t ih =>
    by_cases ha : a = "days_left"
    · subst ha
      have hr : renameLabel "days_left" = "days_remaining" := rfl
      rw [List.map_cons, hr, List.indexOf_cons_self, List.indexOf_cons_self]
    · have ha2 : a ≠ "days_remaining" := by
        intro hh
        exact h (hh ▸ List.mem_cons_self a t)
      have hrl : renameLabel a = a := by simp [renameLabel, ha]
      rw [List.map_cons, hrl, List.indexOf_cons_ne _ ha2,
        List.indexOf_cons_ne _ ha,
        ih (fun hm => h (List.mem_cons_of_mem a hm))]

lemma mem_map_renameLabel (l : List String) (h : "days_left" ∈ l) :
    "days_remaining" ∈ l.map renameLabel := by
  refine List.mem_map.mpr ⟨"days_left", h, rfl⟩

lemma deriveRows_isOk_iff (nowNs : Int) (i : Nat) (rs : List (List Cell)) :
    (deriveRows nowNs i rs).isOk = true ↔
      ∀ r ∈ rs, (toDatetimeNs (r.getD i .na)).isOk = true := by
  induction rs with
  | nil =>
    constructor
    · intro _ r hr
      exact absurd hr (List.not_mem_nil r)
    · intro _
      rfl
  | cons r t ih =>
    constructor
    · intro h r2 hr2
      unfold deriveRows at h
      cases hd : toDatetimeNs (r.getD i .na) with
      | error e =>
        rw [hd] at h
        simp [Except.isOk, Except.toBool] at h
      | ok o =>
        rw [hd] at h
        cases ht : deriveRows nowNs i t with
        | error e =>
          rw [ht] at h
          simp [Except.isOk, Except.toBool] at h
        | ok rest =>
          rcases List.mem_cons.mp hr2 with heq | hmem
          · rw [heq, hd]
            rfl
          · exact (ih.mp (by rw [ht]; rfl)) r2 hmem
    · intro hall
      unfold deriveRows
      cases hd : toDatetimeNs (r.getD i .na) with
      | error e =>
        have hh := hall r (List.mem_cons_self r t)
        rw [hd] at hh
        simp [Except.isOk, Except.toBool] at hh
      | ok o =>
        cases ht : deriveRows nowNs i t with
        | error e =>
          have h2 : (deriveRows nowNs i t).isOk = true :=
            ih.mpr (fun r2 hr2 => hall r2 (List.mem_cons_of_mem r hr2))
          rw [ht] at h2
          simp [Except.isOk, Except.toBool] at h2
        | ok rest => rfl

lemma deriveRows_ok_eq (nowNs : Int) (i : Nat) (rs rs' : List (List Cell))
    (h : deriveRows nowNs i rs = .ok rs') :
    rs' = rs.map (fun r => r ++ [expiryCellOf nowNs (r.getD i .na)]) := by
  induction rs generalizing rs' with
  | nil =>
    simp only [deriveRows, Except.ok.injEq] at h
    rw [← h]
    rfl
  | cons r t ih =>
    unfold deriveRows at h
    cases hd : toDatetimeNs (r.getD i .na) with
    | error e =>
      rw [hd] at h
      simp at h
    | ok o =>
      rw [hd] at h
      cases ht : deriveRows nowNs i t with
      | error e =>
        rw [ht] at h
        simp at h
      | ok rest =>
        rw [ht] at h
        simp only [Except.ok.injEq] at h
        have hx : expiryCellOf nowNs (r.getD i .na) = expiryCell nowNs o := by
          unfold expiryCellOf
          rw [hd]
        rw [List.map_cons, ← ih rest ht, ← h, hx]

lemma isRisky_iff (i : Nat) (r : List Cell) :
    isRisky i r = true ↔ cellVal (r.getD i .na) ≤ 3 := by
  simp [isRisky]

lemma exceptMap_isOk {ε α β : Type} (f : α → β) (e : Except ε α) :
    (Except.map f e).isOk = e.isOk := by
  cases e <;> rfl

lemma digitChar_mod_isDigit (n : Nat) :
    (Nat.digitChar (n % 10)).isDigit = true := by
  have h : n % 10 < 10 := Nat.mod_lt _ (by norm_num)
  generalize n % 10 = m at h
  interval_cases m <;> decide

lemma isoUtcZ_valid (t : Timestamp) : isIso8601UtcZ (isoUtcZ t) = true := by
  unfold isoUtcZ pad4 pad2 pad6
  by_cases hm : t.micro = 0 <;>
    simp [hm, isIso8601UtcZ, digitChar_mod_isDigit]

/-! ### Claim theorems -/

/-- C1: on a normalized batch (days_remaining column present, every
days_remaining cell numeric), a row is in `assess`'s risky rows iff its
days_remaining is at most 3 — the boundary 3 and negative (expired) values
included — and the risky rows are exactly the order-preserving filter of the
batch, hence a sublist of it. -/
theorem C1_risky_rows_characterization (df : DataFrame)
    (hcol : "days_remaining" ∈ df.cols)
    (hnum : ∀ r ∈ df.rows, Cell.isNum (r.getD (daysIdx df) .na) = true) :
    (assess df).1.risky_rows.rows = df.rows.filter (isRisky (daysIdx df)) ∧
    (∀ r, r ∈ (assess df).1.risky_rows.rows ↔
      r ∈ df.rows ∧ cellVal (r.getD (daysIdx df) .na) ≤ 3) ∧
    List.Sublist (assess df).1.risky_rows.rows df.rows := by
  have hmap : df.rows.map (coerceRow (daysIdx df)) = df.rows :=
    map_eq_self_of _ _ (fun r hr => coerceRow_of_isNum _ _ (hnum r hr))
  have hrisky : (assess df).1.risky_rows.rows =
      df.rows.filter (isRisky (daysIdx df)) := by
    show (findRiskyRows df).1.rows = _
    rw [findRiskyRows_of_mem df hcol]
    simp only
    rw [hmap]
  refine ⟨hrisky, ?_, ?_⟩
  · intro r
    rw [hrisky, List.mem_filter, isRisky_iff]
  · rw [hrisky]
    exact List.filter_sublist df.rows

/-- Witness for C1 at a concrete normalized two-row batch. -/
theorem C1_witness :
    ("days_remaining" ∈ dfSmall.cols ∧
      ∀ r ∈ dfSmall.rows, Cell.isNum (r.getD (daysIdx dfSmall) .na) = true) ∧
    ((assess dfSmall).1.risky_rows.rows =
        dfSmall.rows.filter (isRisky (daysIdx dfSmall)) ∧
      (∀ r, r ∈ (assess dfSmall).1.risky_rows.rows ↔
        r ∈ dfSmall.rows ∧ cellVal (r.getD (daysIdx dfSmall) .na) ≤ 3) ∧
      List.Sublist (assess dfSmall).1.risky_rows.rows dfSmall.rows) :=
  ⟨⟨by decide, by decide⟩,
    C1_risky_rows_characterization dfSmall (by decide) (by decide)⟩

/-- C6: the risk score of any batch — empty, all-risky or all-sentineled —
lies between 0 and 100. -/
theorem C6_risk_score_bounds (df : DataFrame) :
    0 ≤ (assess df).1.risk_score ∧ (assess df).1.risk_score ≤ 100 :=
  ⟨Nat.zero_le _, by rw [assess_risk_score]; exact riskScoreOf_le_100 _ _⟩

/-- C3: a row whose days_remaining cell is unresolvable (missing or
non-numeric) is kept with its cell coerced to the sentinel 9999 — it stays in
the batch the caller holds, its value reads 9999, it fails the risky
predicate, and it is not among the risky rows. -/
theorem C3_unresolvable_gets_sentinel (df : DataFrame) (r : List Cell)
    (hcol : "days_remaining" ∈ df.cols)
    (hr : r ∈ df.rows)
    (hbad : cellToNum (r.getD (daysIdx df) .na) = none) :
    coerceRow (daysIdx df) r ∈ (assess df).2.rows ∧
    cellVal ((coerceRow (daysIdx df) r).getD (daysIdx df) .na) = 9999 ∧
    isRisky (daysIdx df) (coerceRow (daysIdx df) r) = false ∧
    coerceRow (daysIdx df) r ∉ (assess df).1.risky_rows.rows := by
  have hsnd : (assess df).2.rows = df.rows.map (coerceRow (daysIdx df)) := by
    show (findRiskyRows df).2.rows = _
    rw [findRiskyRows_of_mem df hcol]
  have hval : cellVal ((coerceRow (daysIdx df) r).getD (daysIdx df) .na) =
      9999 := by
    rw [cellVal_getD_coerceRow]
    unfold cellVal
    rw [hbad]
    rfl
  have hnr : isRisky (daysIdx df) (coerceRow (daysIdx df) r) = false := by
    have := isRisky_iff (daysIdx df) (coerceRow (daysIdx df) r)
    rw [hval] at this
    rcases Bool.eq_false_or_eq_true (isRisky (daysIdx df)
      (coerceRow (daysIdx df) r)) with hb | hb
    · exact absurd (this.mp hb) (by norm_num)
    · exact hb
  refine ⟨?_, hval, hnr, ?_⟩
  · rw [hsnd]
    exact List.mem_map_of_mem _ hr
  · intro hmem
    have hfst : (assess df).1.risky_rows.rows =
        (df.rows.map (coerceRow (daysIdx df))).filter (isRisky (daysIdx df)) := by
      show (findRiskyRows df).1.rows = _
      rw [findRiskyRows_of_mem df hcol]
    rw [hfst, List.mem_filter, hnr] at hmem
    exact absurd hmem.2 (by simp)

/-- Witness for C3: a batch with a missing days_remaining cell. -/
theorem C3_witness :
    ("days_remaining" ∈ dfMissing.cols ∧
      [Cell.str "milk", Cell.na] ∈ dfMissing.rows ∧
      cellToNum ([Cell.str "milk", Cell.na].getD (daysIdx dfMissing) .na) =
        none) ∧
    (coerceRow (daysIdx dfMissing) [Cell.str "milk", Cell.na] ∈
        (assess dfMissing).2.rows ∧
      cellVal ((coerceRow (daysIdx dfMissing)
        [Cell.str "milk", Cell.na]).getD (daysIdx dfMissing) .na) = 9999 ∧
      isRisky (daysIdx dfMissing)
        (coerceRow (daysIdx dfMissing) [Cell.str "milk", Cell.na]) = false ∧
      coerceRow (daysIdx dfMissing) [Cell.str "milk", Cell.na] ∉
        (assess dfMissing).1.risky_rows.rows) :=
  ⟨⟨by decide, by decide, by decide⟩,
    C3_unresolvable_gets_sentinel dfMissing [Cell.str "milk", Cell.na]
      (by decide) (by decide) (by decide)⟩

/-- C7 as stated is false: `find_risky_rows` assigns the coerced
days_remaining column back onto its argument, mutating the caller's
dataframe.  On a batch whose days_remaining cell is the non-numeric string
"soon", the batch after `assess` differs from the input: the cell has become
the sentinel 9999. -/
theorem C7_counterexample :
    (assess dfMut).2 ≠ dfMut ∧ (assess dfMut).2.rows = [[Cell.num 9999]] :=
  ⟨by decide, by decide⟩

/-- C7 (amended): `assess` is pure except that it coerces the days_remaining
column of its argument in place; for a well-formed batch the input is
unchanged precisely when the days_remaining column is absent or every
days_remaining cell is already numeric. -/
theorem C7_amended_mutation (df : DataFrame) (hwf : df.Wf) :
    (assess df).2 = df ↔
      ("days_remaining" ∉ df.cols ∨
        ∀ r ∈ df.rows, Cell.isNum (r.getD (daysIdx df) .na) = true) := by
  constructor
  · intro h
    by_cases hcol : "days_remaining" ∈ df.cols
    · right
      have h2 : (findRiskyRows df).2 = df := h
      rw [findRiskyRows_of_mem df hcol] at h2
      have hmap : df.rows.map (coerceRow (daysIdx df)) = df.rows :=
        congrArg DataFrame.rows h2
      intro r hr
      rcases List.getElem_of_mem hr with ⟨k, hk, hkr⟩
      have h1 : (df.rows.map (coerceRow (daysIdx df)))[k]? = df.rows[k]? := by
        rw [hmap]
      rw [List.getElem?_map, List.getElem?_eq_getElem hk] at h1
      simp only [Option.map_some'] at h1
      have heq : coerceRow (daysIdx df) df.rows[k] = df.rows[k] :=
        Option.some.inj h1
      rw [hkr] at heq
      have hlt : daysIdx df < r.length := by
        rw [hwf r hr]
        exact List.indexOf_lt_length.mpr hcol
      exact isNum_of_coerceRow_eq _ r hlt heq
    · left
      exact hcol
  · intro h
    show (findRiskyRows df).2 = df
    by_cases hcol : "days_remaining" ∈ df.cols
    · rcases h with hna | hnum
      · exact absurd hcol hna
      · rw [findRiskyRows_of_mem df hcol]
        have hmap : df.rows.map (coerceRow (daysIdx df)) = df.rows :=
          map_eq_self_of _ _ (fun r hr => coerceRow_of_isNum _ _ (hnum r hr))
        rw [hmap]
    · rw [findRiskyRows_of_not_mem df hcol]

/-- Witness for C7 (amended) on a concrete well-formed all-numeric batch:
the input is indeed unchanged. -/
theorem C7_witness :
    dfSmall.Wf ∧ (assess dfSmall).2 = dfSmall :=
  ⟨by show ∀ r ∈ dfSmall.rows, r.length = dfSmall.cols.length; decide,
    (C7_amended_mutation dfSmall
      (by show ∀ r ∈ dfSmall.rows, r.length = dfSmall.cols.length
          decide)).mpr
      (Or.inr (by decide))⟩

/-- C8: assessing twice yields identical results and no clock enters
`assess` — the second call, made on the dataframe the first call left in the
caller's hands, returns the same assessment and the same dataframe (the model
takes no time parameter: only normalize's date derivation reads the clock). -/
theorem C8_assess_idempotent (df : DataFrame) :
    assess (assess df).2 = assess df := by
  unfold assess
  rw [findRiskyRows_snd_stable]

/-- C4 as stated is false for the `src/main.py` variant: `pd.to_datetime`
is called with its default `errors="raise"`, so an unparseable expiry_date
cell raises and the batch derivation aborts instead of excluding or
sentineling the row. -/
theorem C4_counterexample :
    "expiry_date" ∈ dfBadDate.cols ∧
    (deriveExpiryDays 0 dfBadDate).isOk = false :=
  ⟨by decide, by decide⟩

/-- C4 (amended): for a batch with an expiry_date column, the derivation
succeeds iff every expiry_date cell is accepted by `pd.to_datetime`
(parseable date, missing, or numeric) — one bad cell raises and aborts the
batch — and on success each row gains an `expiry_days` cell holding the
floor of the whole days until its expiry timestamp. -/
theorem C4_amended_date_error_aborts (nowNs : Int) (df : DataFrame)
    (hcol : "expiry_date" ∈ df.cols) :
    ((deriveExpiryDays nowNs df).isOk = true ↔
      ∀ r ∈ df.rows,
        (toDatetimeNs (r.getD (df.cols.indexOf "expiry_date") .na)).isOk =
          true) ∧
    ∀ df', deriveExpiryDays nowNs df = .ok df' →
      df'.cols = df.cols ++ ["expiry_days"] ∧
      df'.rows = df.rows.map (fun r =>
        r ++ [expiryCellOf nowNs
          (r.getD (df.cols.indexOf "expiry_date") .na)]) := by
  unfold deriveExpiryDays
  rw [if_pos hcol]
  constructor
  · rw [exceptMap_isOk]
    exact deriveRows_isOk_iff nowNs _ df.rows
  · intro df' h
    cases hd : deriveRows nowNs (df.cols.indexOf "expiry_date") df.rows with
    | error e =>
      rw [hd] at h
      simp [Except.map] at h
    | ok rs =>
      rw [hd] at h
      simp only [Except.map, Except.ok.injEq] at h
      rw [← h]
      exact ⟨rfl, deriveRows_ok_eq nowNs _ df.rows rs hd⟩

/-- Witness for C4 (amended) on a batch of acceptable expiry cells: the
derivation succeeds. -/
theorem C4_witness :
    "expiry_date" ∈ dfGoodDate.cols ∧
    (deriveExpiryDays 0 dfGoodDate).isOk = true :=
  ⟨by decide,
    (C4_amended_date_error_aborts 0 dfGoodDate (by decide)).1.mpr (by decide)⟩

/-- C5: `days_left` is accepted as a synonym — when `days_remaining` is
absent, the rename maps `days_left` to `days_remaining` at the same column
position with the data untouched — and when both columns are present the
rename does nothing, so the canonical `days_remaining` column is the one the
classifier reads and `days_left` is ignored. -/
theorem C5_days_left_synonym :
    (∀ df : DataFrame, "days_left" ∈ df.cols → "days_remaining" ∉ df.cols →
      (applyDaysLeftRename df).rows = df.rows ∧
      "days_remaining" ∈ (applyDaysLeftRename df).cols ∧
      daysIdx (applyDaysLeftRename df) = df.cols.indexOf "days_left") ∧
    (∀ df : DataFrame, "days_left" ∈ df.cols → "days_remaining" ∈ df.cols →
      applyDaysLeftRename df = df) := by
  constructor
  · intro df h1 h2
    have hc : applyDaysLeftRename df =
        { df with cols := df.cols.map renameLabel } := by
      unfold applyDaysLeftRename
      rw [if_pos ⟨h1, h2⟩]
    rw [hc]
    exact ⟨rfl, mem_map_renameLabel _ h1, indexOf_map_renameLabel _ h2⟩
  · intro df h1 h2
    unfold applyDaysLeftRename
    rw [if_neg (fun hh => hh.2 h2)]

/-- Witness for C5: the synonym-only batch is renamed in place; the
both-columns batch is left untouched. -/
theorem C5_witness :
    ("days_left" ∈ dfLeft.cols ∧ "days_remaining" ∉ dfLeft.cols ∧
      ((applyDaysLeftRename dfLeft).rows = dfLeft.rows ∧
        "days_remaining" ∈ (applyDaysLeftRename dfLeft).cols ∧
        daysIdx (applyDaysLeftRename dfLeft) =
          dfLeft.cols.indexOf "days_left")) ∧
    ("days_left" ∈ dfBoth.cols ∧ "days_remaining" ∈ dfBoth.cols ∧
      applyDaysLeftRename dfBoth = dfBoth) :=
  ⟨⟨by decide, by decide,
      C5_days_left_synonym.1 dfLeft (by decide) (by decide)⟩,
    ⟨by decide, by decide,
      C5_days_left_synonym.2 dfBoth (by decide) (by decide)⟩⟩

/-- C9: the webhook payload consists of exactly the three fields of
`AlertPayload`: `alert_time`, an ISO-8601 UTC timestamp
(`utcnow().isoformat() + "Z"`); `risk_score`, an integer between 0 and 100;
and `risky_items`, the risky rows as records keyed by the batch's columns. -/
theorem C9_payload_fields (df : DataFrame) (now : Timestamp) (hwf : df.Wf) :
    (buildAlertPayload now (assess df).1.risk_score
        (assess df).1.risky_rows).alert_time = isoUtcZ now ∧
    isIso8601UtcZ (buildAlertPayload now (assess df).1.risk_score
        (assess df).1.risky_rows).alert_time = true ∧
    0 ≤ (buildAlertPayload now (assess df).1.risk_score
        (assess df).1.risky_rows).risk_score ∧
    (buildAlertPayload now (assess df).1.risk_score
        (assess df).1.risky_rows).risk_score ≤ 100 ∧
    (buildAlertPayload now (assess df).1.risk_score
        (assess df).1.risky_rows).risky_items =
      toRecords (assess df).1.risky_rows ∧
    ∀ rec ∈ (buildAlertPayload now (assess df).1.risk_score
        (assess df).1.risky_rows).risky_items,
      rec.map Prod.fst = df.cols := by
  refine ⟨rfl, isoUtcZ_valid now, Int.natCast_nonneg _, ?_, rfl, ?_⟩
  · have hb : (assess df).1.risk_score ≤ 100 := by
      rw [assess_risk_score]
      exact riskScoreOf_le_100 _ _
    show ((assess df).1.risk_score : Int) ≤ 100
    exact_mod_cast hb
  · intro rec hrec
    by_cases hcol : "days_remaining" ∈ df.cols
    · have hfst : (assess df).1.risky_rows =
          ⟨df.cols, (df.rows.map (coerceRow (daysIdx df))).filter
            (isRisky (daysIdx df))⟩ := by
        show (findRiskyRows df).1 = _
        rw [findRiskyRows_of_mem df hcol]
      rw [hfst] at hrec
      rcases List.mem_map.mp hrec with ⟨r, hrmem, rfl⟩
      have hr2 : r ∈ df.rows.map (coerceRow (daysIdx df)) :=
        List.mem_of_mem_filter hrmem
      rcases List.mem_map.mp hr2 with ⟨r0, hr0, rfl⟩
      have hlen : (coerceRow (daysIdx df) r0).length = df.cols.length := by
        unfold coerceRow
        rw [List.length_set]
        exact hwf r0 hr0
      exact List.map_fst_zip _ _ (le_of_eq hlen.symm)
    · have hfst : (assess df).1.risky_rows = ⟨[], []⟩ := by
        show (findRiskyRows df).1 = _
        rw [findRiskyRows_of_not_mem df hcol]
      rw [hfst] at hrec
      exact absurd hrec (List.not_mem_nil rec)

/-- Witness for C9 at a concrete batch and instant. -/
theorem C9_witness :
    dfSmall.Wf ∧
    isIso8601UtcZ (buildAlertPayload ⟨2026, 10, 12, 1, 2, 3, 0⟩
        (assess dfSmall).1.risk_score
        (assess dfSmall).1.risky_rows).alert_time = true ∧
    (buildAlertPayload ⟨2026, 10, 12, 1, 2, 3, 0⟩
        (assess dfSmall).1.risk_score
        (assess dfSmall).1.risky_rows).risk_score ≤ 100 :=
  have hwf : dfSmall.Wf := by
    show ∀ r ∈ dfSmall.rows, r.length = dfSmall.cols.length
    decide
  ⟨hwf, (C9_payload_fields dfSmall ⟨2026, 10, 12, 1, 2, 3, 0⟩ hwf).2.1,
    (C9_payload_fields dfSmall ⟨2026, 10, 12, 1, 2, 3, 0⟩ hwf).2.2.2.1⟩

/-- C10: a non-empty upload whose normalized columns carry neither
`days_remaining` nor `days_left` takes the early-return path: the risky
frame is the empty dataframe, the risk score is 100, and the caller's
dataframe is the normalized frame unchanged — no cell was coerced to the
sentinel. -/
theorem C10_no_day_column (df : DataFrame)
    (hne : df.rows ≠ [])
    (h1 : "days_remaining" ∉ (normalizeDfColumns df).cols)
    (h2 : "days_left" ∉ (normalizeDfColumns df).cols) :
    (assess (normalizeUpload df)).1.risky_rows = ⟨[], []⟩ ∧
    (assess (normalizeUpload df)).1.risk_score = 100 ∧
    (assess (normalizeUpload df)).2 = normalizeDfColumns df := by
  have hren : normalizeUpload df = normalizeDfColumns df := by
    unfold normalizeUpload applyDaysLeftRename
    rw [if_neg (fun hh => h2 hh.1)]
  have hfr : findRiskyRows (normalizeDfColumns df) =
      (⟨[], []⟩, normalizeDfColumns df) :=
    findRiskyRows_of_not_mem _ h1
  have hlen : df.rows.length ≠ 0 :=
    fun hz => hne (List.length_eq_zero.mp hz)
  refine ⟨?_, ?_, ?_⟩
  · show (findRiskyRows (normalizeUpload df)).1 = _
    rw [hren, hfr]
  · rw [assess_risk_score, hren, hfr]
    show riskScoreOf 0 df.rows.length = 100
    rw [riskScoreOf_eq_div 0 _ (Nat.zero_le _), if_neg hlen, Nat.sub_zero,
      Nat.mul_div_cancel 100 (Nat.pos_of_ne_zero hlen)]
  · show (findRiskyRows (normalizeUpload df)).2 = _
    rw [hren, hfr]

/-- Witness for C10 at a two-row upload with only a product column. -/
theorem C10_witness :
    (dfNoDays.rows ≠ [] ∧
      "days_remaining" ∉ (normalizeDfColumns dfNoDays).cols ∧
      "days_left" ∉ (normalizeDfColumns dfNoDays).cols) ∧
    ((assess (normalizeUpload dfNoDays)).1.risky_rows = ⟨[], []⟩ ∧
      (assess (normalizeUpload dfNoDays)).1.risk_score = 100 ∧
      (assess (normalizeUpload dfNoDays)).2 = normalizeDfColumns dfNoDays) :=
  ⟨⟨by decide, by decide, by decide⟩,
    C10_no_day_column dfNoDays (by decide) (by decide) (by decide)⟩
